import Mathlib

/-!
Shallow embedding of the MCP-OpenAI chat client
(src/src/mcp_client_openai.py) and verification of its specification.

The client is sequential request/response orchestration over two external
protocols: an LLM chat-completion API and an MCP tool-server transport.
Both external collaborators are modelled as oracle functions carried in an
environment record, so that every run of the orchestrator is a pure
computation.  The orchestrator itself — process_query — is translated
statement by statement: the conversation list, the accumulating final_text
list, the per-tool-call loop, and the at-most-two completion calls.
Machine-visible effects (completion requests issued, tool invocations
dispatched) are recorded in the result so that claims about their number
and order are statable.
-/

namespace MCPOpenAI

/-- A tool call request produced by the model: mirrors the fields read from
an OpenAI tool_call object (tc.id, tc.type, tc.function.name,
tc.function.arguments — the raw JSON text). -/
structure ToolCallReq where
  id : String
  ty : String
  name : String
  arguments : String
deriving DecidableEq

/-- The message of one completion choice: optional text content and the
list of requested tool calls (None and the empty list are both falsy in
the Python truthiness tests, so a plain list suffices). -/
structure ReplyMessage where
  content : Option String
  tool_calls : List ToolCallReq
deriving DecidableEq

/-- A conversation message, one constructor per dict shape appended by
process_query: the seed user message, the assistant message echoing the
tool calls, and a tool-role result message tagged with a tool_call_id. -/
inductive Msg where
  | user (content : String)
  | assistant (content : Option String) (tool_calls : List ToolCallReq)
  | tool (content : String) (tool_call_id : String)
deriving DecidableEq

/-- Whether a conversation message has the tool role. -/
def Msg.isToolRole : Msg → Bool
  | .tool _ _ => true
  | _ => false

/-- The tool_call_id tag of a tool-role message, if any. -/
def Msg.toolCallId : Msg → Option String
  | .tool _ i => some i
  | _ => none

/-- An MCP tool descriptor as read by the conversion routine: tool.name,
tool.description, tool.inputSchema (the schema is opaque JSON, carried
verbatim as its raw text). -/
structure MCPTool where
  name : String
  description : String
  inputSchema : String
deriving DecidableEq

/-- The function part of an OpenAI function spec. -/
structure OAIFunction where
  name : String
  description : String
  parameters : String
deriving DecidableEq

/-- An OpenAI tool spec: the dict with keys type and function. -/
structure OAITool where
  ty : String
  function : OAIFunction
deriving DecidableEq

/-- Embedding of _convert_mcp_tools_to_openai_format: start from the empty
list and append one re-wrapped spec per descriptor, in catalog order. -/
def convert_mcp_tools_to_openai_format (mcp_tools : List MCPTool) : List OAITool :=
  List.foldl
    (fun openai_tools tool =>
      openai_tools ++ [⟨"function", ⟨tool.name, tool.description, tool.inputSchema⟩⟩])
    [] mcp_tools

/-- One chat-completion request as assembled in completion_args: the model
name, the conversation, max_tokens, and — only when the adapted tool list
is non-empty — the tools and tool_choice entries. -/
structure CompletionRequest where
  model : String
  messages : List Msg
  max_tokens : Nat
  tools : Option (List OAITool)
  tool_choice : Option String
deriving DecidableEq

/-- The environment of oracles process_query runs against: the tool
catalog the server reports, the JSON argument parser (json.loads, with
parse failure as none and the Python empty dict as emptyArgs), the
rendering of parsed arguments used in the f-string trace line, the MCP
call_tool transport (an exception surfaces as .error with the exception
text, success as .ok with the stringified result content), and the
chat-completion provider. -/
structure Env (α : Type) where
  tools : List MCPTool
  parseJson : String → Option α
  emptyArgs : α
  reprArgs : α → String
  callTool : String → α → Except String String
  complete : CompletionRequest → ReplyMessage

/-- Builds completion_args for a given conversation: both completion
calls of process_query construct their arguments identically. -/
def mkCompletionRequest {α : Type} (env : Env α) (msgs : List Msg) : CompletionRequest :=
  let openai_tools := convert_mcp_tools_to_openai_format env.tools
  if openai_tools.isEmpty then ⟨"gpt-4o", msgs, 1000, none, none⟩
  else ⟨"gpt-4o", msgs, 1000, some openai_tools, some "auto"⟩

/-- The tool_args local: json.loads of the raw argument text, degrading
to the empty argument set on a JSONDecodeError. -/
def parsedArgs {α : Type} (env : Env α) (tc : ToolCallReq) : α :=
  match env.parseJson tc.arguments with
  | some a => a
  | none => env.emptyArgs

/-- The diagnostic trace line appended to final_text for each call. -/
def traceLine {α : Type} (env : Env α) (tc : ToolCallReq) : String :=
  "[Calling tool " ++ tc.name ++ " with args " ++ env.reprArgs (parsedArgs env tc) ++ "]"

/-- The error_message built when a tool invocation raises. -/
def errString (tool_name : String) (e : String) : String :=
  "Error calling tool " ++ tool_name ++ ": " ++ e

/-- The mutable state of the per-tool-call loop: the accumulating
final_text fragments, the conversation, and the record of call_tool
dispatches (name and parsed arguments). -/
structure LoopState (α : Type) where
  finalText : List String
  messages : List Msg
  invocations : List (String × α)

/-- One iteration of the for-loop over message.tool_calls: parse the
arguments, append the trace line, dispatch call_tool, and append either
the result or the error message as a tool-role conversation message. -/
def toolLoopStep {α : Type} (env : Env α) (st : LoopState α) (tool_call : ToolCallReq) : LoopState α :=
  let tool_name := tool_call.name
  let tool_args := parsedArgs env tool_call
  let afterTrace := st.finalText ++ [traceLine env tool_call]
  match env.callTool tool_name tool_args with
  | .ok result =>
      ⟨afterTrace,
       st.messages ++ [Msg.tool result tool_call.id],
       st.invocations ++ [(tool_name, tool_args)]⟩
  | .error e =>
      ⟨afterTrace ++ [errString tool_name e],
       st.messages ++ [Msg.tool (errString tool_name e) tool_call.id],
       st.invocations ++ [(tool_name, tool_args)]⟩

/-- Python truthiness filter applied to message.content before appending
it to final_text: None and the empty string are both skipped. -/
def contentList : Option String → List String
  | none => []
  | some c => if c.isEmpty then [] else [c]

/-- Embedding of the final "\n".join(final_text): the separator goes
strictly between elements. -/
def joinLines : List String → String
  | [] => ""
  | [x] => x
  | x :: y :: rest => x ++ "\n" ++ joinLines (y :: rest)

/-- The observable outcome of one process_query run: the returned string,
the final_text fragments it joins, the conversation at the end, the
completion requests issued in order, and the call_tool dispatches in
order. -/
structure ProcessResult (α : Type) where
  final : String
  finalText : List String
  messages : List Msg
  completions : List CompletionRequest
  invocations : List (String × α)

/-- Embedding of process_query: guard on the session, seed the
conversation with the user message, issue the first completion; if the
reply requests tool calls, append the assistant message, run the tool
loop, and issue the follow-up completion; return the joined final_text. -/
def processQuery {α : Type} (env : Env α) (connected : Bool) (query : String) : ProcessResult α :=
  if connected then
    let messages0 := [Msg.user query]
    let req1 := mkCompletionRequest env messages0
    let message := env.complete req1
    let final0 := contentList message.content
    if message.tool_calls.isEmpty then
      ⟨joinLines final0, final0, messages0, [req1], []⟩
    else
      let messages1 := messages0 ++ [Msg.assistant message.content message.tool_calls]
      let st := List.foldl (toolLoopStep env) ⟨final0, messages1, []⟩ message.tool_calls
      let req2 := mkCompletionRequest env st.messages
      let final_message := env.complete req2
      let parts := st.finalText ++ contentList final_message.content
      ⟨joinLines parts, parts, st.messages, [req1, req2], st.invocations⟩
  else ⟨"Error: Not connected to MCP server", [], [], [], []⟩

/-- Embedding of Python str.lower over the characters of a string. -/
def pyLower (s : String) : String := ⟨s.data.map Char.toLower⟩

/-- Embedding of Python str.strip: drop leading and trailing whitespace. -/
def pyStrip (s : String) : String :=
  ⟨((s.data.dropWhile Char.isWhitespace).reverse.dropWhile Char.isWhitespace).reverse⟩

/-- Embedding of Python str.endswith. -/
def pyEndsWith (s suf : String) : Bool := List.isSuffixOf suf.data s.data

/-- Embedding of chat_loop over a list of input lines, recording the
(query, response) pairs for which the orchestrator was invoked: each line
is stripped, a case-insensitive quit/exit/q terminates the loop before
any orchestrator call, any other line is forwarded to process_query. -/
def chatLoop (pq : String → String) : List String → List (String × String)
  | [] => []
  | line :: rest =>
      let query := pyStrip line
      if pyLower query ∈ ["quit", "exit", "q"] then []
      else (query, pq query) :: chatLoop pq rest

/-- The message of the ValueError raised by MCPClientOpenAI.__init__ when
the API key is missing. -/
def requiredKeyError : String := "OPENAI_API_KEY environment variable is required"

/-- The client state produced by a successful construction: the API key
and the session field, still unconnected. -/
structure ClientState where
  apiKey : String
  connected : Bool
deriving DecidableEq

/-- Embedding of MCPClientOpenAI.__init__: read OPENAI_API_KEY from the
environment; a missing or empty value (both falsy) raises the ValueError
before anything else happens. -/
def clientInit (getenv : String → Option String) : Except String ClientState :=
  match getenv "OPENAI_API_KEY" with
  | none => .error requiredKeyError
  | some k => if k.isEmpty then .error requiredKeyError else .ok ⟨k, false⟩

/-- A network-visible event of the client: the transport handshake with
the tool server, one chat-completion round-trip, or one call_tool
dispatch. -/
inductive NetEvent where
  | connectServer (path : String)
  | completionCall
  | toolInvocation (name : String)
deriving DecidableEq

/-- The network events of one process_query run, read off its recorded
completions and invocations: the first completion, then the dispatched
tool calls, then the follow-up completion when one was issued. -/
def queryNetEvents {α : Type} (r : ProcessResult α) : List NetEvent :=
  match r.completions with
  | [] => []
  | [_] => [NetEvent.completionCall]
  | _ :: _ :: _ =>
      NetEvent.completionCall ::
        (r.invocations.map (fun p => NetEvent.toolInvocation p.1) ++ [NetEvent.completionCall])

/-- Embedding of client_main: construct the client (which may raise
before any network activity), validate the server script extension,
connect, and run the chat loop; returns the outcome together with the
ordered network events. -/
def clientMain {α : Type} (getenv : String → Option String) (path : String)
    (env : Env α) (inputs : List String) :
    Except String (List (String × String)) × List NetEvent :=
  match clientInit getenv with
  | .error e => (.error e, [])
  | .ok _ =>
      if pyEndsWith path ".py" || pyEndsWith path ".js" then
        let calls := chatLoop (fun q => (processQuery env true q).final) inputs
        (.ok calls,
         NetEvent.connectServer path ::
           calls.flatMap (fun c => queryNetEvents (processQuery env true c.1)))
      else (.error "Server script must be a .py or .js file", [])

/-- The outcome of dispatching one tool call: the call_tool oracle applied
to the tool name and the defensively parsed arguments. -/
def toolOutcome {α : Type} (env : Env α) (tc : ToolCallReq) : Except String String :=
  env.callTool tc.name (parsedArgs env tc)

/-- The final_text fragments one tool call contributes: the trace line,
followed by the error message when the invocation raised. -/
def traceLines {α : Type} (env : Env α) (tc : ToolCallReq) : List String :=
  match toolOutcome env tc with
  | .ok _ => [traceLine env tc]
  | .error e => [traceLine env tc, errString tc.name e]

/-- The tool-role conversation message one tool call contributes: the
stringified result on success, the error message on an exception, tagged
either way with the originating call's id. -/
def toolMsg {α : Type} (env : Env α) (tc : ToolCallReq) : Msg :=
  match toolOutcome env tc with
  | .ok result => Msg.tool result tc.id
  | .error e => Msg.tool (errString tc.name e) tc.id

/-- The first completion request of a query: the seed conversation is the
single user message. -/
def firstRequest {α : Type} (env : Env α) (q : String) : CompletionRequest :=
  mkCompletionRequest env [Msg.user q]

/-- The model's first reply for a query. -/
def firstReply {α : Type} (env : Env α) (q : String) : ReplyMessage :=
  env.complete (firstRequest env q)

/-- The conversation at the end of the tool loop when the first reply
requested tool calls: user message, assistant message, then one tool-role
message per request in request order. -/
def allMessages {α : Type} (env : Env α) (q : String) : List Msg :=
  Msg.user q ::
    Msg.assistant (firstReply env q).content (firstReply env q).tool_calls ::
      (firstReply env q).tool_calls.map (fun tc => toolMsg env tc)

theorem mkCompletionRequest_messages {α : Type} (env : Env α) (msgs : List Msg) :
    (mkCompletionRequest env msgs).messages = msgs := by
  by_cases hc : (convert_mcp_tools_to_openai_format env.tools).isEmpty <;>
    simp [mkCompletionRequest, hc]

theorem isToolRole_toolMsg {α : Type} (env : Env α) (tc : ToolCallReq) :
    (toolMsg env tc).isToolRole = true := by
  cases h : toolOutcome env tc <;> simp [toolMsg, Msg.isToolRole, h]

theorem toolCallId_toolMsg {α : Type} (env : Env α) (tc : ToolCallReq) :
    (toolMsg env tc).toolCallId = some tc.id := by
  cases h : toolOutcome env tc <;> simp [toolMsg, Msg.toolCallId, h]

theorem toolLoop_foldl {α : Type} (env : Env α) (tcs : List ToolCallReq) (st : LoopState α) :
    List.foldl (toolLoopStep env) st tcs =
      ⟨st.finalText ++ tcs.flatMap (fun tc => traceLines env tc),
       st.messages ++ tcs.map (fun tc => toolMsg env tc),
       st.invocations ++ tcs.map (fun tc => (tc.name, parsedArgs env tc))⟩ := by
  induction tcs generalizing st with
  | nil => simp
  | cons tc tcs ih =>
      rw [List.foldl_cons, ih]
      cases h : env.callTool tc.name (parsedArgs env tc) <;>
        simp [toolLoopStep, traceLines, toolMsg, toolOutcome, h, List.append_assoc]

/-- Closed form of processQuery when the first reply requests no tool
calls: one completion request, the conversation stays the seed message,
nothing is dispatched. -/
theorem processQuery_no_toolcalls {α : Type} (env : Env α) (q : String)
    (h : (firstReply env q).tool_calls = []) :
    processQuery env true q =
      ⟨joinLines (contentList (firstReply env q).content),
       contentList (firstReply env q).content,
       [Msg.user q], [firstRequest env q], []⟩ := by
  unfold processQuery
  simp only [if_true]
  rw [show mkCompletionRequest env [Msg.user q] = firstRequest env q from rfl]
  rw [show env.complete (firstRequest env q) = firstReply env q from rfl]
  simp [h]

/-- Closed form of processQuery when the first reply requests tool calls:
two completion requests, the final conversation is allMessages, the
final_text is first content, then per-call trace fragments, then the
follow-up reply's content, and the dispatches are one per request. -/
theorem processQuery_toolcalls {α : Type} (env : Env α) (q : String)
    (h : (firstReply env q).tool_calls ≠ []) :
    processQuery env true q =
      ⟨joinLines (contentList (firstReply env q).content
          ++ (firstReply env q).tool_calls.flatMap (fun tc => traceLines env tc)
          ++ contentList (env.complete (mkCompletionRequest env (allMessages env q))).content),
       contentList (firstReply env q).content
          ++ (firstReply env q).tool_calls.flatMap (fun tc => traceLines env tc)
          ++ contentList (env.complete (mkCompletionRequest env (allMessages env q))).content,
       allMessages env q,
       [firstRequest env q, mkCompletionRequest env (allMessages env q)],
       (firstReply env q).tool_calls.map (fun tc => (tc.name, parsedArgs env tc))⟩ := by
  unfold processQuery
  simp only [if_true]
  rw [show mkCompletionRequest env [Msg.user q] = firstRequest env q from rfl]
  rw [show env.complete (firstRequest env q) = firstReply env q from rfl]
  rw [if_neg (by simpa using h)]
  rw [toolLoop_foldl]
  simp [allMessages, List.append_assoc]

theorem joinLines_nil : joinLines [] = "" := rfl

theorem joinLines_singleton (x : String) : joinLines [x] = x := rfl

/-- Every element of the joined list occurs as a contiguous substring of
the join, stated on the underlying character lists. -/
theorem mem_joinLines_infix (x : String) (l : List String) (hx : x ∈ l) :
    x.data <:+: (joinLines l).data := by
  induction l with
  | nil => cases hx
  | cons y ys ih =>
      cases ys with
      | nil =>
          have : x = y := by simpa using hx
          subst this
          exact List.infix_refl x.data
      | cons z zs =>
          rcases List.mem_cons.mp hx with h | h
          · subst h
            show x.data <:+: (x ++ "\n" ++ joinLines (z :: zs)).data
            refine ⟨[], ("\n" ++ joinLines (z :: zs)).data, ?_⟩
            simp [String.data_append]
          · have hin := ih h
            rcases hin with ⟨s, t, hst⟩
            show x.data <:+: (y ++ "\n" ++ joinLines (z :: zs)).data
            refine ⟨(y ++ "\n").data ++ s, t, ?_⟩
            rw [String.data_append (y ++ "\n") (joinLines (z :: zs)), ← hst]
            simp [List.append_assoc]

theorem convert_foldl (ts : List MCPTool) (acc : List OAITool) :
    List.foldl
      (fun openai_tools tool =>
        openai_tools ++ [⟨"function", ⟨tool.name, tool.description, tool.inputSchema⟩⟩])
      acc ts
      = acc ++ ts.map (fun t => ⟨"function", ⟨t.name, t.description, t.inputSchema⟩⟩) := by
  induction ts generalizing acc with
  | nil => simp
  | cons t ts ih => simp [ih, List.append_assoc]

/-- C7: the schema adapter produces one provider-native function spec per
descriptor, in catalog order, copying name, description, and input schema
verbatim, with no validation and no filtering. -/
theorem c7_schema_adapter_rewraps (ts : List MCPTool) :
    convert_mcp_tools_to_openai_format ts =
        ts.map (fun t => ⟨"function", ⟨t.name, t.description, t.inputSchema⟩⟩) ∧
    (convert_mcp_tools_to_openai_format ts).length = ts.length := by
  have h := convert_foldl ts []
  constructor
  · simpa [convert_mcp_tools_to_openai_format] using h
  · have h2 : convert_mcp_tools_to_openai_format ts
        = ts.map (fun t => ⟨"function", ⟨t.name, t.description, t.inputSchema⟩⟩) := by
      simpa [convert_mcp_tools_to_openai_format] using h
    rw [h2, List.length_map]

/-- C8: an input line whose stripped, lowercased form is quit, exit, or q
terminates the interactive loop without invoking process_query for that
line (the loop records no orchestrator call at all from that point). -/
theorem c8_quit_terminates (pq : String → String) (line : String) (rest : List String)
    (h : pyLower (pyStrip line) ∈ ["quit", "exit", "q"]) :
    chatLoop pq (line :: rest) = [] := by
  unfold chatLoop
  simp [h]

/-- C9: when the OPENAI_API_KEY environment variable is absent, client
construction fails with the descriptive ValueError message before the
server connection and before any provider call: the run produces no
network event at all. -/
theorem c9_missing_key_fails_fast {α : Type} (getenv : String → Option String)
    (path : String) (env : Env α) (inputs : List String)
    (h : getenv "OPENAI_API_KEY" = none) :
    clientMain getenv path env inputs =
      (Except.error "OPENAI_API_KEY environment variable is required", ([] : List NetEvent)) := by
  unfold clientMain clientInit
  rw [h]
  rfl

/-- C10: with no established session, process_query returns exactly the
string Error: Not connected to MCP server, issues no completion request,
dispatches no tool invocation, and builds no conversation. -/
theorem c10_not_connected {α : Type} (env : Env α) (q : String) :
    processQuery env false q =
      ⟨"Error: Not connected to MCP server", [], [], [], []⟩ := rfl

/-- C5: when the first reply requests no tool calls, the returned string
is exactly that reply's content. -/
theorem c5_no_toolcalls_returns_content {α : Type} (env : Env α) (q c : String)
    (h1 : (firstReply env q).tool_calls = [])
    (h2 : (firstReply env q).content = some c) :
    (processQuery env true q).final = c := by
  rw [processQuery_no_toolcalls env q h1]
  show joinLines (contentList (firstReply env q).content) = c
  rw [h2]
  by_cases hc : c.isEmpty
  · have hce : c = "" := by
      cases c with
      | mk data =>
          cases data with
          | nil => rfl
          | cons a as =>
              exfalso
              have hpos := Char.utf8Size_pos a
              simp [String.isEmpty, String.endPos, String.utf8ByteSize,
                String.Pos.ext_iff] at hc
              omega
    simp [contentList, hc, joinLines, hce]
  · simp [contentList, hc, joinLines]

/-- C1: when the first reply requests N tool calls, the conversation sent
with the follow-up completion request contains exactly N tool-role
messages, one per request, in request order, each tagged with the
tool_call_id of the originating request, whether the invocation succeeded
or raised. -/
theorem c1_tool_role_messages {α : Type} (env : Env α) (q : String)
    (h : (firstReply env q).tool_calls ≠ []) :
    (processQuery env true q).completions =
        [firstRequest env q, mkCompletionRequest env (allMessages env q)] ∧
    (mkCompletionRequest env (allMessages env q)).messages.filter Msg.isToolRole =
        (firstReply env q).tool_calls.map (fun tc => toolMsg env tc) ∧
    ((mkCompletionRequest env (allMessages env q)).messages.filter Msg.isToolRole).length =
        (firstReply env q).tool_calls.length ∧
    ((mkCompletionRequest env (allMessages env q)).messages.filter Msg.isToolRole).map
        Msg.toolCallId =
        (firstReply env q).tool_calls.map (fun tc => some tc.id) := by
  have hf : (mkCompletionRequest env (allMessages env q)).messages.filter Msg.isToolRole =
      (firstReply env q).tool_calls.map (fun tc => toolMsg env tc) := by
    rw [mkCompletionRequest_messages]
    unfold allMessages
    rw [List.filter_cons_of_neg (by simp [Msg.isToolRole]),
      List.filter_cons_of_neg (by simp [Msg.isToolRole]), List.filter_map]
    rw [List.filter_eq_self.mpr (fun tc _ => by simp [Function.comp, isToolRole_toolMsg])]
  refine ⟨?_, hf, ?_, ?_⟩
  · rw [processQuery_toolcalls env q h]
  · rw [hf, List.length_map]
  · rw [hf, List.map_map]
    exact List.map_congr_left (fun tc _ => toolCallId_toolMsg env tc)

/-- C3: when a requested invocation raises, the tool-role message
appended at that request's position has content Error calling tool,
name, colon-space, exception text, and the returned string contains that
error string as a substring. -/
theorem c3_error_message {α : Type} (env : Env α) (q : String) (i : Nat)
    (tc : ToolCallReq) (e : String)
    (h1 : (firstReply env q).tool_calls[i]? = some tc)
    (h2 : env.callTool tc.name (parsedArgs env tc) = .error e) :
    (processQuery env true q).messages[2 + i]? =
        some (Msg.tool ("Error calling tool " ++ tc.name ++ ": " ++ e) tc.id) ∧
    ("Error calling tool " ++ tc.name ++ ": " ++ e).data <:+:
        (processQuery env true q).final.data := by
  have hne : (firstReply env q).tool_calls ≠ [] := by
    intro hnil
    rw [hnil] at h1
    simp at h1
  have hmem : tc ∈ (firstReply env q).tool_calls := List.getElem?_mem h1
  have houtcome : toolOutcome env tc = .error e := h2
  rw [processQuery_toolcalls env q hne]
  constructor
  · show (allMessages env q)[2 + i]? = _
    unfold allMessages
    rw [show 2 + i = i + 1 + 1 from by omega, List.getElem?_cons_succ,
      List.getElem?_cons_succ, List.getElem?_map, h1]
    simp [toolMsg, houtcome, errString]
  · apply mem_joinLines_infix
    refine List.mem_append.mpr (Or.inl (List.mem_append.mpr (Or.inr ?_)))
    refine List.mem_flatMap.mpr ⟨tc, hmem, ?_⟩
    simp [traceLines, houtcome, errString]

/-- C4: a tool call whose argument payload fails to parse as JSON is
still dispatched, with the empty argument set in place of the payload;
every requested call is dispatched and the follow-up completion is still
issued, so the turn is not aborted. -/
theorem c4_invalid_json_dispatch {α : Type} (env : Env α) (q : String) (i : Nat)
    (tc : ToolCallReq)
    (h1 : (firstReply env q).tool_calls[i]? = some tc)
    (h2 : env.parseJson tc.arguments = none) :
    (processQuery env true q).invocations[i]? = some (tc.name, env.emptyArgs) ∧
    (processQuery env true q).invocations.length = (firstReply env q).tool_calls.length ∧
    (processQuery env true q).completions.length = 2 := by
  have hne : (firstReply env q).tool_calls ≠ [] := by
    intro hnil
    rw [hnil] at h1
    simp at h1
  have hp : parsedArgs env tc = env.emptyArgs := by simp [parsedArgs, h2]
  rw [processQuery_toolcalls env q hne]
  refine ⟨?_, ?_, rfl⟩
  · show ((firstReply env q).tool_calls.map (fun tc => (tc.name, parsedArgs env tc)))[i]? = _
    rw [List.getElem?_map, h1]
    simp [hp]
  · show ((firstReply env q).tool_calls.map (fun tc => (tc.name, parsedArgs env tc))).length = _
    rw [List.length_map]

/-- C6: when the first reply requests tool calls, the returned string is
the newline-join of the first reply's content (when truthy), then for
each request in order its trace line followed by the error string when
the invocation raised, then the follow-up reply's content (when
truthy). -/
theorem c6_final_text_structure {α : Type} (env : Env α) (q : String)
    (h : (firstReply env q).tool_calls ≠ []) :
    (processQuery env true q).final =
      joinLines (contentList (firstReply env q).content
        ++ (firstReply env q).tool_calls.flatMap (fun tc => traceLines env tc)
        ++ contentList (env.complete (mkCompletionRequest env (allMessages env q))).content) := by
  rw [processQuery_toolcalls env q h]

/-- Replacing the completion oracle by one that answers the first request
identically and any later request with the same content does not change
the run at all: process_query never reads anything but the content of the
second reply. -/
theorem processQuery_complete_congr {α : Type} (env : Env α) (q : String)
    (f : CompletionRequest → ReplyMessage)
    (hfirst : f (firstRequest env q) = env.complete (firstRequest env q))
    (hcontent : ∀ req, (f req).content = (env.complete req).content) :
    processQuery { env with complete := f } true q = processQuery env true q := by
  have e2 : firstReply { env with complete := f } q = firstReply env q := hfirst
  by_cases hem : (firstReply env q).tool_calls = []
  · rw [processQuery_no_toolcalls { env with complete := f } q (by rw [e2]; exact hem),
      processQuery_no_toolcalls env q hem, e2]
    rfl
  · have hem' : (firstReply { env with complete := f } q).tool_calls ≠ [] := by
      rw [e2]; exact hem
    rw [processQuery_toolcalls { env with complete := f } q hem',
      processQuery_toolcalls env q hem]
    have e6 : allMessages { env with complete := f } q = allMessages env q := by
      unfold allMessages
      rw [e2]
      rfl
    rw [e6, e2]
    have e9 : contentList
        (({ env with complete := f } : Env α).complete
          (mkCompletionRequest { env with complete := f } (allMessages env q))).content =
        contentList (env.complete (mkCompletionRequest env (allMessages env q))).content := by
      show contentList (f (mkCompletionRequest env (allMessages env q))).content = _
      rw [hcontent]
    rw [e9]
    rfl

/-- C2: every query issues exactly one completion request when the first
reply has no tool calls and exactly two otherwise; only the first reply's
tool calls are ever executed; and a provider whose second reply carries
arbitrary extra tool-call requests (same content) produces the identical
run, so those requests are ignored. -/
theorem c2_at_most_two_completions {α : Type} (env : Env α) (q : String)
    (g : CompletionRequest → List ToolCallReq) :
    (processQuery env true q).completions.length =
        (if (firstReply env q).tool_calls.isEmpty then 1 else 2) ∧
    (processQuery env true q).invocations =
        (firstReply env q).tool_calls.map (fun tc => (tc.name, parsedArgs env tc)) ∧
    processQuery
        { env with complete := fun req =>
            if req = firstRequest env q then env.complete req
            else ⟨(env.complete req).content, g req⟩ } true q
      = processQuery env true q := by
  refine ⟨?_, ?_, ?_⟩
  · by_cases hem : (firstReply env q).tool_calls = []
    · rw [processQuery_no_toolcalls env q hem]
      simp [hem]
    · rw [processQuery_toolcalls env q hem]
      simp [hem]
  · by_cases hem : (firstReply env q).tool_calls = []
    · rw [processQuery_no_toolcalls env q hem, hem]
      rfl
    · rw [processQuery_toolcalls env q hem]
  · apply processQuery_complete_congr
    · simp
    · intro req
      by_cases hr : req = firstRequest env q <;> simp [hr]

/-- A concrete tool catalog entry for exercising the theorems. -/
def weatherTool : MCPTool := ⟨"get_weather", "Get the current weather for a city", "object-schema"⟩

/-- A concrete user query. -/
def weatherQuery : String := "What is the weather in Boston?"

/-- A concrete tool call request as the model would emit it. -/
def weatherCall : ToolCallReq := ⟨"call_1", "function", "get_weather", "city-json"⟩

/-- A concrete oracle environment: one tool, a parser recognising one
payload, a transport that succeeds, and a provider requesting one tool
call in the first round and answering plainly in the second. -/
def envW : Env String :=
  ⟨[weatherTool],
   fun s => if s = "city-json" then some "city=Boston" else none,
   "no-args",
   fun a => a,
   fun _ _ => Except.ok "72F, clear",
   fun req =>
     if req.messages.length ≤ 1 then ⟨some "Checking the weather.", [weatherCall]⟩
     else ⟨some "It is 72F and clear in Boston.", []⟩⟩

/-- The same environment with a transport that raises on every call. -/
def envErr : Env String := { envW with callTool := fun _ _ => Except.error "server down" }

/-- The same environment with a provider that never requests tools. -/
def envPlain : Env String := { envW with complete := fun _ => ⟨some "Hello there.", []⟩ }

/-- A tool call whose argument payload is not valid JSON. -/
def badArgsCall : ToolCallReq := ⟨"call_2", "function", "get_weather", "not json"⟩

/-- The same environment with a provider whose first reply carries the
unparseable tool call. -/
def envBadArgs : Env String :=
  { envW with complete := fun req =>
      if req.messages.length ≤ 1 then ⟨none, [badArgsCall]⟩
      else ⟨some "done", []⟩ }

/-- Witness for C1 at the concrete one-tool-call environment. -/
theorem c1_tool_role_messages_witness :
    (processQuery envW true weatherQuery).completions =
        [firstRequest envW weatherQuery,
         mkCompletionRequest envW (allMessages envW weatherQuery)] ∧
    (mkCompletionRequest envW (allMessages envW weatherQuery)).messages.filter
        Msg.isToolRole =
        (firstReply envW weatherQuery).tool_calls.map (fun tc => toolMsg envW tc) ∧
    ((mkCompletionRequest envW (allMessages envW weatherQuery)).messages.filter
        Msg.isToolRole).length =
        (firstReply envW weatherQuery).tool_calls.length ∧
    ((mkCompletionRequest envW (allMessages envW weatherQuery)).messages.filter
        Msg.isToolRole).map Msg.toolCallId =
        (firstReply envW weatherQuery).tool_calls.map (fun tc => some tc.id) :=
  c1_tool_role_messages envW weatherQuery (by decide)

/-- Witness for C3 at the concrete raising-transport environment. -/
theorem c3_error_message_witness :
    (processQuery envErr true weatherQuery).messages[2 + 0]? =
        some (Msg.tool ("Error calling tool " ++ weatherCall.name ++ ": " ++ "server down")
          weatherCall.id) ∧
    ("Error calling tool " ++ weatherCall.name ++ ": " ++ "server down").data <:+:
        (processQuery envErr true weatherQuery).final.data :=
  c3_error_message envErr weatherQuery 0 weatherCall "server down" (by decide) rfl

/-- Witness for C4 at the concrete unparseable-arguments environment. -/
theorem c4_invalid_json_dispatch_witness :
    (processQuery envBadArgs true weatherQuery).invocations[0]? =
        some (badArgsCall.name, envBadArgs.emptyArgs) ∧
    (processQuery envBadArgs true weatherQuery).invocations.length =
        (firstReply envBadArgs weatherQuery).tool_calls.length ∧
    (processQuery envBadArgs true weatherQuery).completions.length = 2 :=
  c4_invalid_json_dispatch envBadArgs weatherQuery 0 badArgsCall (by decide) (by decide)

/-- Witness for C5 at the concrete no-tool-call environment. -/
theorem c5_no_toolcalls_returns_content_witness :
    (processQuery envPlain true weatherQuery).final = "Hello there." :=
  c5_no_toolcalls_returns_content envPlain weatherQuery "Hello there." (by decide) (by decide)

/-- Witness for C6 at the concrete one-tool-call environment. -/
theorem c6_final_text_structure_witness :
    (processQuery envW true weatherQuery).final =
      joinLines (contentList (firstReply envW weatherQuery).content
        ++ (firstReply envW weatherQuery).tool_calls.flatMap (fun tc => traceLines envW tc)
        ++ contentList
          (envW.complete (mkCompletionRequest envW (allMessages envW weatherQuery))).content) :=
  c6_final_text_structure envW weatherQuery (by decide)

/-- Witness for C8 at a concrete quit line. -/
theorem c8_quit_terminates_witness :
    chatLoop (fun s => s) ("  QUIT " :: ["hello"]) = [] :=
  c8_quit_terminates (fun s => s) "  QUIT " ["hello"] (by decide)

/-- Witness for C9 at a concrete empty environment table. -/
theorem c9_missing_key_fails_fast_witness :
    clientMain (fun _ => (none : Option String)) "weather_server.py" envW [] =
      (Except.error "OPENAI_API_KEY environment variable is required", ([] : List NetEvent)) :=
  c9_missing_key_fails_fast (fun _ => none) "weather_server.py" envW [] rfl

end MCPOpenAI
